import Mathlib

/-!
Shallow embedding of `www2csv/sql.py` (`SQLTarget`): a batched SQL insert
writer.  Pure statement/plan generation is translated directly; the effectful
parts (cursor execution, connection commits, warnings) are modelled by an
explicit state record plus an event trace, with the backend's per-call
behaviour supplied by an oracle record.
-/

/-- Semantic value categories distinguished by `SQLTarget.type_map` (keys of
the Python dict built in `__init__`), plus `tOther` for any runtime type not
present in the map. -/
inductive ValueType where
  | tStr
  | tInt
  | tFloat
  | tDate
  | tTime
  | tDatetime
  | tUrl
  | tIPv4Address
  | tIPv6Address
  | tIPv4Port
  | tIPv6Port
  | tHostname
  | tFilename
  | tOther
  deriving DecidableEq, Repr

/-- A scalar value in a row.  `intRep` models Python `int(value)` and
`strRep` models Python `str(value)` (the only two coercions the source ever
applies to a value). -/
structure Value where
  vtype : ValueType
  intRep : Int
  strRep : String
  deriving DecidableEq, Repr

/-- A row passed to `SQLTarget.write`: an ordered tuple of values, optionally
carrying namedtuple field names (`row._fields`). -/
structure Row where
  fields : Option (List String)
  values : List Value
  deriving DecidableEq, Repr

/-- Models Python `str(row)`: a textual rendering of the tuple built from the
values' own renderings. -/
def Row.text (r : Row) : String :=
  "(" ++ String.intercalate ", " (r.values.map Value.strRep) ++ ")"

/-- Constructor configuration of `SQLTarget.__init__` (the `db_module`
paramstyle, table name, commit threshold, schema-management flags and the
per-category column type strings, with the source's defaults). -/
structure Config where
  paramstyle : String
  table : String
  commit : Nat := 1000
  create_table : Bool := false
  drop_table : Bool := false
  ignore_drop_errors : Bool := true
  str_type : String := "VARCHAR(1000)"
  int_type : String := "INTEGER"
  fixed_type : String := "DOUBLE"
  date_type : String := "DATE"
  time_type : String := "TIME"
  datetime_type : String := "TIMESTAMP"
  ip_type : String := "VARCHAR(53)"
  hostname_type : String := "VARCHAR(255)"
  filename_type : String := "VARCHAR(260)"
  deriving DecidableEq, Repr

/-- The `self.type_map` dict built in `__init__`: exact-type lookup from a
value's runtime type to its column type string; `none` models a `KeyError`
for a type absent from the dict. -/
def type_map (c : Config) : ValueType → Option String
  | ValueType.tStr => some c.str_type
  | ValueType.tInt => some c.int_type
  | ValueType.tFloat => some c.fixed_type
  | ValueType.tDate => some c.date_type
  | ValueType.tTime => some c.time_type
  | ValueType.tDatetime => some c.datetime_type
  | ValueType.tUrl => some c.str_type
  | ValueType.tIPv4Address => some c.ip_type
  | ValueType.tIPv6Address => some c.ip_type
  | ValueType.tIPv4Port => some c.ip_type
  | ValueType.tIPv6Port => some c.ip_type
  | ValueType.tHostname => some c.hostname_type
  | ValueType.tFilename => some c.filename_type
  | ValueType.tOther => none

/-- Per-column coercion stored in `self._row_casts`: Python `int`, `str` or
`None`. -/
inductive RowCast where
  | toInt
  | toStr
  | identity
  deriving DecidableEq, Repr

/-- A parameter bound for the INSERT: the value itself (`None` cast), its
`int(...)` form, or its `str(...)` form. -/
inductive Param where
  | asIs (v : Value)
  | asInt (i : Int)
  | asText (s : String)
  deriving DecidableEq, Repr

/-- `cast(value) if cast else value` from `SQLTarget.write`. -/
def applyCast : RowCast → Value → Param
  | RowCast.toInt, v => Param.asInt v.intRep
  | RowCast.toStr, v => Param.asText v.strRep
  | RowCast.identity, v => Param.asIs v

/-- Fatal (propagating) exceptions raised by the embedded code paths:
`TypeError`, `KeyError` (on the paramstyle dict, or on `type_map` with the
offending type), and an uncaught `db_module.Error`. -/
inductive SQLFatal where
  | typeError (msg : String)
  | keyError (key : String)
  | keyErrorType (t : ValueType)
  | dbError (msg : String)
  deriving DecidableEq, Repr

/-- Observable actions issued by the writer, in order: cursor acquisition and
release, `cursor.execute` calls (DROP / CREATE / INSERT), `connection.commit`
calls, `warnings.warn` calls, and `planBuilt`, which marks the internal
assignment of `self._insert` / `self._row_casts` in `_generate_statement`. -/
inductive Event where
  | cursorOpen
  | cursorClose
  | execDrop (sql : String)
  | execCreate (sql : String)
  | execInsert (sql : String) (params : List Param)
  | commit
  | warn (msg : String)
  | planBuilt (sql : String) (casts : List RowCast)
  deriving DecidableEq, Repr

/-- Mutable per-session state of `SQLTarget` (`_first_row`, `_row_casts`,
`_insert`, `_counter`). -/
structure WState where
  first_row : Option Row
  row_casts : Option (List RowCast)
  insert : Option String
  counter : Nat
  deriving DecidableEq, Repr

/-- State as set by `__init__` / reset by `__exit__`. -/
def initState : WState :=
  { first_row := none, row_casts := none, insert := none, counter := 0 }

/-- Backend behaviour for one `write` call: whether each of the up-to-three
`cursor.execute` calls raises a `db_module.Error`, and its message. -/
structure Oracle where
  dropErr : Option String := none
  createErr : Option String := none
  insertErr : Option String := none
  deriving DecidableEq, Repr

/-- An oracle on which every execute succeeds. -/
def cleanOracle : Oracle := {}

/-- Field names used for statement generation: `row._fields` when present,
else the synthesized `field1..fieldN` (1-based, from `_generate_statement`
and `_create_table`). -/
def field_names (row : Row) : List String :=
  match row.fields with
  | some fs => fs
  | none => (List.range row.values.length).map (fun j => "field" ++ toString (j + 1))

/-- The paramstyle dict of `_generate_statement`, looked up per position:
`{'qmark': '?', 'numeric': ':%d' % i, 'named': ':%s' % name, 'format': '%s',
'pyformat': '%%(%s)s' % name}[paramstyle]`; `none` models the `KeyError` for
an unknown paramstyle.  Note `i` comes straight from `enumerate`, so it is
0-based. -/
def placeholder (style : String) (i : Nat) (name : String) : Option String :=
  if style = "qmark" then some "?"
  else if style = "numeric" then some (":" ++ toString i)
  else if style = "named" then some (":" ++ name)
  else if style = "format" then some "%s"
  else if style = "pyformat" then some ("%(" ++ name ++ ")s")
  else none

/-- The placeholder list comprehension over `enumerate(fields)`. -/
def placeholders (style : String) (names : List String) : Option (List String) :=
  names.enum.mapM (fun p => placeholder style p.1 p.2)

/-- `SQLTarget._generate_statement`: builds the INSERT text and the
per-column cast list from the (first) row.  The IP cast decision reads
`type_map[IPv4Address]`, which `__init__` always sets to `ip_type`.
`is_ip_base` below models `isinstance(value, (IPv4Address, IPv6Address))`. -/
def is_ip_base : ValueType → Bool
  | ValueType.tIPv4Address => true
  | ValueType.tIPv6Address => true
  | ValueType.tIPv4Port => true
  | ValueType.tIPv6Port => true
  | _ => false

/-- Modelled from the spec: the `www2csv.datatypes` module is not under
`src/`, so the class hierarchy behind `isinstance(value, (IPv4Address,
IPv6Address))` is unavailable; per the spec's "IP-address-family type"
(section 4.3), the address-with-port types belong to the IP address family,
so all four IP types satisfy the check.  This wraps `is_ip_base` for
emphasis. -/
def isIpFamily (t : ValueType) : Bool := is_ip_base t

/-- Python `str.upper()` as applied by the source to an ASCII column type
string; written structurally over the character list so that proofs can
evaluate it. -/
def upperStr (s : String) : String := String.mk (s.data.map Char.toUpper)

/-- Python `str.startswith(p)`; structural character-list prefix test. -/
def startsWithStr (s p : String) : Bool := p.data.isPrefixOf s.data

def generate_statement (c : Config) (row : Row) :
    Except SQLFatal (String × List RowCast) :=
  match placeholders c.paramstyle (field_names row) with
  | none => Except.error (SQLFatal.keyError c.paramstyle)
  | some phs =>
    let ins := "INSERT INTO " ++ c.table ++ " VALUES (" ++
      String.intercalate ", " phs ++ ")"
    let ipc := if startsWithStr (upperStr c.ip_type) "INT"
      then RowCast.toInt else RowCast.toStr
    let casts := row.values.map (fun v =>
      if is_ip_base v.vtype then ipc
      else if v.vtype = ValueType.tUrl then RowCast.toStr
      else RowCast.identity)
    Except.ok (ins, casts)

/-- The column definition comprehension of `_create_table`, evaluated left to
right; the first missing `type_map` entry raises `KeyError`. -/
def col_defs (c : Config) : List (String × Value) → Except SQLFatal (List String)
  | [] => Except.ok []
  | (name, v) :: rest =>
    match type_map c v.vtype with
    | none => Except.error (SQLFatal.keyErrorType v.vtype)
    | some t =>
      match col_defs c rest with
      | Except.error e => Except.error e
      | Except.ok ds => Except.ok ((name ++ " " ++ t) :: ds)

/-- The CREATE TABLE text built by `_create_table` (before execution). -/
def create_table_sql (c : Config) (row : Row) : Except SQLFatal String :=
  match col_defs c ((field_names row).zip row.values) with
  | Except.error e => Except.error e
  | Except.ok ds =>
    Except.ok ("CREATE TABLE " ++ c.table ++ " (" ++
      String.intercalate ", " ds ++ ")")

/-- The DROP TABLE text built by `_drop_table`. -/
def drop_table_sql (c : Config) : String := "DROP TABLE " ++ c.table

/-- Result of one `write` call: the Python outcome (normal return or a
propagating exception), the successor state, and the events issued. -/
structure WriteOut where
  res : Except SQLFatal Unit
  st : WState
  events : List Event
  deriving Repr

/-- The `warnings.warn('%s while inserting row %s' % (str(exc), str(row)),
SQLWarning)` branch of `write`'s try/except around the INSERT. -/
def warn_events (o : Oracle) (row : Row) : List Event :=
  match o.insertErr with
  | some msg => [Event.warn (msg ++ " while inserting row " ++ row.text)]
  | none => []

/-- `if self._counter % self.commit == 0: self.connection.commit()`. -/
def commit_events (c : Config) (counter : Nat) : List Event :=
  if counter % c.commit = 0 then [Event.commit] else []

/-- `params = [cast(value) if cast else value for (cast, value) in
zip(self._row_casts, row)]`. -/
def insert_params (casts : List RowCast) (vals : List Value) : List Param :=
  (casts.zip vals).map (fun p => applyCast p.1 p.2)

/-- The tail of `write` shared by all non-raising paths: build params,
execute the INSERT (a driver error becomes one warning), increment the
counter, commit at batch boundaries. -/
def doInsert (c : Config) (o : Oracle) (s : WState) (row : Row)
    (ins : String) (casts : List RowCast) (pre : List Event) : WriteOut :=
  { res := Except.ok ()
    st := { s with counter := s.counter + 1 }
    events := pre ++ [Event.execInsert ins (insert_params casts row.values)]
      ++ warn_events o row ++ commit_events c (s.counter + 1) }

/-- The `if self.drop_table:` block of `write`: `_drop_table` executes the
DROP then commits; a `db_module.Error` from the execute skips the commit and
is swallowed when `ignore_drop_errors`, re-raised otherwise. -/
def drop_step (c : Config) (o : Oracle) : List Event × Option SQLFatal :=
  if c.drop_table then
    match o.dropErr with
    | some msg =>
      if c.ignore_drop_errors then ([Event.execDrop (drop_table_sql c)], none)
      else ([Event.execDrop (drop_table_sql c)], some (SQLFatal.dbError msg))
    | none => ([Event.execDrop (drop_table_sql c), Event.commit], none)
  else ([], none)

/-- The `if self.create_table:` block of `write`: `_create_table` builds the
DDL (a `type_map` `KeyError` raises before any execute), executes it (a
driver error propagates: the call is not wrapped in try/except), then
commits. -/
def create_step (c : Config) (o : Oracle) (row : Row) :
    List Event × Option SQLFatal :=
  if c.create_table then
    match create_table_sql c row with
    | Except.error e => ([], some e)
    | Except.ok sql =>
      match o.createErr with
      | some msg => ([Event.execCreate sql], some (SQLFatal.dbError msg))
      | none => ([Event.execCreate sql, Event.commit], none)
  else ([], none)

/-- The `else:` (first-row) branch of `write`: record the row, generate the
statement plan, then run the optional DROP and CREATE, then fall through to
the shared INSERT tail. -/
def firstWrite (c : Config) (o : Oracle) (s : WState) (row : Row) : WriteOut :=
  match generate_statement c row with
  | Except.error e =>
    { res := Except.error e
      st := { s with first_row := some row }, events := [] }
  | Except.ok pr =>
    match (drop_step c o).2 with
    | some e =>
      { res := Except.error e
        st := { s with first_row := some row
                       insert := some pr.1, row_casts := some pr.2 }
        events := Event.planBuilt pr.1 pr.2 :: (drop_step c o).1 }
    | none =>
      match (create_step c o row).2 with
      | some e =>
        { res := Except.error e
          st := { s with first_row := some row
                         insert := some pr.1, row_casts := some pr.2 }
          events := Event.planBuilt pr.1 pr.2 ::
            ((drop_step c o).1 ++ (create_step c o row).1) }
      | none =>
        doInsert c o
          { s with first_row := some row
                   insert := some pr.1, row_casts := some pr.2 }
          row pr.1 pr.2
          (Event.planBuilt pr.1 pr.2 ::
            ((drop_step c o).1 ++ (create_step c o row).1))

/-- `SQLTarget.write`.  `if self._first_row:` is a Python truthiness test:
it takes the first-row branch both when `_first_row` is `None` and when the
recorded first row is an empty tuple.  On a recorded non-empty first row, a
width mismatch raises `TypeError`; otherwise the shared INSERT tail runs
with the stored plan (a missing stored plan models the `zip(None, row)`
`TypeError` that Python would raise in that corner). -/
def write (c : Config) (o : Oracle) (s : WState) (row : Row) : WriteOut :=
  match s.first_row with
  | some fr =>
    if fr.values.isEmpty then firstWrite c o s row
    else if row.values.length ≠ fr.values.length then
      { res := Except.error
          (SQLFatal.typeError "Rows must have the same number of elements")
        st := s, events := [] }
    else
      match s.insert, s.row_casts with
      | some ins, some casts => doInsert c o s row ins casts []
      | _, _ =>
        { res := Except.error
            (SQLFatal.typeError "zip argument must support iteration")
          st := s, events := [] }
  | none => firstWrite c o s row

/-- `SQLTarget.__exit__`: close the cursor, reset all per-session state,
then issue the final commit (in that order). -/
def sqlexit (_s : WState) : WState × List Event :=
  (initState, [Event.cursorClose, Event.commit])

/-- A sequence of `write` calls threading the state, collecting all events;
the caller keeps calling `write` whether or not individual calls raised
(per-call exceptions do not close the session). -/
def runWrites (c : Config) : WState → List (Oracle × Row) → WState × List Event
  | s, [] => (s, [])
  | s, (o, r) :: rest =>
    let w := write c o s r
    let k := runWrites c w.st rest
    (k.1, w.events ++ k.2)

/-- A full writer session: `__enter__` (cursor acquisition), the write
calls, and `__exit__`. -/
def sessionEvents (c : Config) (calls : List (Oracle × Row)) : List Event :=
  Event.cursorOpen :: (runWrites c initState calls).2
    ++ (sqlexit (runWrites c initState calls).1).2

/-- Event classifiers for trace statements. -/
def isCommitEvt : Event → Bool
  | Event.commit => true
  | _ => false

def isInsertEvt : Event → Bool
  | Event.execInsert _ _ => true
  | _ => false

def isWarnEvt : Event → Bool
  | Event.warn _ => true
  | _ => false

def isDropEvt : Event → Bool
  | Event.execDrop _ => true
  | _ => false

def isCreateEvt : Event → Bool
  | Event.execCreate _ => true
  | _ => false

def isPlanEvt : Event → Bool
  | Event.planBuilt _ _ => true
  | _ => false

def isCloseEvt : Event → Bool
  | Event.cursorClose => true
  | _ => false

/-- Whether a `write` outcome is a normal return (no exception). -/
def resOk : Except SQLFatal Unit → Bool
  | Except.ok _ => true
  | Except.error _ => false

/-- Phase number of the first-write steps as the code orders them: statement
plan construction, then DROP, then CREATE, then the INSERT; other events are
ignored. -/
def phase_of : Event → Option Nat
  | Event.planBuilt _ _ => some 0
  | Event.execDrop _ => some 1
  | Event.execCreate _ => some 2
  | Event.execInsert _ _ => some 3
  | _ => none

/-- Phase number of the first-write steps in the order the claim states
them: DROP, then CREATE, then statement plan construction. -/
def phaseClaimed : Event → Option Nat
  | Event.execDrop _ => some 0
  | Event.execCreate _ => some 1
  | Event.planBuilt _ _ => some 2
  | _ => none

/-- A list of naturals is sorted in non-decreasing order. -/
def nondecreasing : List Nat → Bool
  | [] => true
  | [_] => true
  | a :: b :: rest => Nat.ble a b && nondecreasing (b :: rest)

/-- The parameter list of the first INSERT execution in a trace, if any. -/
def firstInsertParams : List Event → Option (List Param)
  | [] => none
  | Event.execInsert _ ps :: _ => some ps
  | _ :: rest => firstInsertParams rest

/-! Concrete fixtures used by witnesses and counterexamples. -/

def vInt7 : Value := { vtype := ValueType.tInt, intRep := 7, strRep := "7" }

def vIpN : Value :=
  { vtype := ValueType.tIPv4Address, intRep := 3232235521, strRep := "192.168.0.1" }

def vUrlV : Value := { vtype := ValueType.tUrl, intRep := 0, strRep := "http://e/" }

def vOth : Value := { vtype := ValueType.tOther, intRep := 0, strRep := "x" }

def rowEmpty : Row := { fields := none, values := [] }

def rowOne : Row := { fields := none, values := [vInt7] }

def rowXY : Row := { fields := some ["x", "y"], values := [vInt7, vInt7] }

def rowOth : Row := { fields := none, values := [vOth] }

def rowIp : Row := { fields := none, values := [vIpN, vUrlV, vInt7] }

def cfgQ : Config := { paramstyle := "qmark", table := "t" }

def cfgQ2 : Config := { paramstyle := "qmark", table := "t", commit := 2 }

def cfgNum : Config := { paramstyle := "numeric", table := "t" }

def cfgCreate : Config := { paramstyle := "qmark", table := "t", create_table := true }

def cfgDropCreate : Config :=
  { paramstyle := "qmark", table := "t", drop_table := true, create_table := true }

def cfgIpInt : Config := { paramstyle := "qmark", table := "t", ip_type := "INTEGER" }

def errOracle : Oracle := { insertErr := some "constraint failed" }

/-- State after a session's first write of `rowOne` under `cfgQ`. -/
def sOne : WState := (write cfgQ cleanOracle initState rowOne).st

/-- State after a session's first write of the empty row under `cfgQ`. -/
def sEmpty : WState := (write cfgQ cleanOracle initState rowEmpty).st

/-! Helper lemmas about the event lists of the individual write steps. -/

theorem drop_step_events (c : Config) (o : Oracle) :
    (drop_step c o).1 = [] ∨
    (drop_step c o).1 = [Event.execDrop (drop_table_sql c)] ∨
    (drop_step c o).1 = [Event.execDrop (drop_table_sql c), Event.commit] := by
  unfold drop_step
  split
  · split
    · split
      · simp
      · simp
    · simp
  · simp

theorem create_step_events (c : Config) (o : Oracle) (row : Row) :
    (create_step c o row).1 = [] ∨
    (∃ sql, (create_step c o row).1 = [Event.execCreate sql]) ∨
    (∃ sql, (create_step c o row).1 = [Event.execCreate sql, Event.commit]) := by
  unfold create_step
  split
  · cases create_table_sql c row with
    | error e => simp
    | ok sql =>
      cases o.createErr with
      | none => right; right; exact ⟨sql, by simp⟩
      | some msg => right; left; exact ⟨sql, by simp⟩
  · simp

theorem warn_events_cases (o : Oracle) (row : Row) :
    (warn_events o row) = [] ∨
    (∃ m, warn_events o row = [Event.warn m]) := by
  unfold warn_events
  cases o.insertErr with
  | none => simp
  | some msg => right; exact ⟨_, rfl⟩

theorem commit_events_cases (c : Config) (n : Nat) :
    commit_events c n = [] ∨ commit_events c n = [Event.commit] := by
  unfold commit_events
  split <;> simp

theorem drop_step_countP (c : Config) (o : Oracle) (p : Event → Bool)
    (h1 : p (Event.execDrop (drop_table_sql c)) = false)
    (h2 : p Event.commit = false) :
    (drop_step c o).1.countP p = 0 := by
  rcases drop_step_events c o with h | h | h <;>
    simp [h, List.countP_cons, h1, h2]

theorem create_step_countP (c : Config) (o : Oracle) (row : Row) (p : Event → Bool)
    (h1 : ∀ sql, p (Event.execCreate sql) = false)
    (h2 : p Event.commit = false) :
    (create_step c o row).1.countP p = 0 := by
  rcases create_step_events c o row with h | ⟨sql, h⟩ | ⟨sql, h⟩ <;>
    simp [h, List.countP_cons, h1, h2]

theorem warn_events_countP (o : Oracle) (row : Row) (p : Event → Bool)
    (h : ∀ m, p (Event.warn m) = false) :
    (warn_events o row).countP p = 0 := by
  rcases warn_events_cases o row with hw | ⟨m, hw⟩ <;>
    simp [hw, List.countP_cons, h]

theorem commit_events_countP (c : Config) (n : Nat) (p : Event → Bool)
    (h : p Event.commit = false) :
    (commit_events c n).countP p = 0 := by
  rcases commit_events_cases c n with hx | hx <;>
    simp [hx, List.countP_cons, h]

theorem drop_step_phase (c : Config) (o : Oracle) :
    (drop_step c o).1.filterMap phase_of = [] ∨
    (drop_step c o).1.filterMap phase_of = [1] := by
  rcases drop_step_events c o with h | h | h <;> simp [h, phase_of]

theorem create_step_phase (c : Config) (o : Oracle) (row : Row) :
    (create_step c o row).1.filterMap phase_of = [] ∨
    (create_step c o row).1.filterMap phase_of = [2] := by
  rcases create_step_events c o row with h | ⟨sql, h⟩ | ⟨sql, h⟩ <;>
    simp [h, phase_of]

theorem warn_events_phase (o : Oracle) (row : Row) :
    (warn_events o row).filterMap phase_of = [] := by
  rcases warn_events_cases o row with hw | ⟨m, hw⟩ <;> simp [hw, phase_of]

theorem commit_events_phase (c : Config) (n : Nat) :
    (commit_events c n).filterMap phase_of = [] := by
  rcases commit_events_cases c n with hx | hx <;> simp [hx, phase_of]

theorem commit_events_commit_count (c : Config) (n : Nat) :
    (commit_events c n).countP isCommitEvt = if n % c.commit = 0 then 1 else 0 := by
  unfold commit_events
  split <;> simp_all [List.countP_cons, isCommitEvt]

theorem succ_div_commit (m n : Nat) :
    (if (n + 1) % m = 0 then 1 else 0) + n / m = (n + 1) / m := by
  rw [Nat.succ_div]
  by_cases h : m ∣ n + 1
  · rw [if_pos (Nat.mod_eq_zero_of_dvd h), if_pos h, Nat.add_comm]
  · rw [if_neg (fun hm => h (Nat.dvd_of_mod_eq_zero hm)), if_neg h,
      Nat.zero_add, Nat.add_zero]

theorem doInsert_batch (c : Config) (o : Oracle) (s : WState) (row : Row)
    (ins : String) (casts : List RowCast) (pre : List Event)
    (hpi : pre.countP isInsertEvt = 0) (hpc : pre.countP isCommitEvt = 0) :
    (doInsert c o s row ins casts pre).st.counter
        = s.counter + (doInsert c o s row ins casts pre).events.countP isInsertEvt
    ∧ (doInsert c o s row ins casts pre).events.countP isCommitEvt
        + s.counter / c.commit
        = (doInsert c o s row ins casts pre).st.counter / c.commit := by
  unfold doInsert
  simp only [List.countP_append, hpi, hpc, List.countP_cons, List.countP_nil,
    commit_events_commit_count,
    warn_events_countP o row isInsertEvt (by intro m; rfl),
    warn_events_countP o row isCommitEvt (by intro m; rfl),
    commit_events_countP c (s.counter + 1) isInsertEvt rfl]
  constructor
  · simp [isInsertEvt, isCommitEvt]
  · simp only [isCommitEvt, isInsertEvt, cond_false]
    simpa using succ_div_commit c.commit s.counter

theorem firstWrite_batch (c : Config) (o : Oracle) (s : WState) (row : Row)
    (hds : drop_step c o = ([], none))
    (hcs : create_step c o row = ([], none)) :
    (firstWrite c o s row).st.counter
        = s.counter + (firstWrite c o s row).events.countP isInsertEvt
    ∧ (firstWrite c o s row).events.countP isCommitEvt + s.counter / c.commit
        = (firstWrite c o s row).st.counter / c.commit := by
  unfold firstWrite
  cases hg : generate_statement c row with
  | error e => simp
  | ok pr =>
    simp only [hds, hcs, List.append_nil]
    have h := doInsert_batch c o
      { s with first_row := some row, insert := some pr.1, row_casts := some pr.2 }
      row pr.1 pr.2 [Event.planBuilt pr.1 pr.2]
      (by simp [List.countP_cons, isInsertEvt])
      (by simp [List.countP_cons, isCommitEvt])
    simpa using h

theorem write_batch (c : Config) (o : Oracle) (s : WState) (row : Row)
    (hd : c.drop_table = false) (hc : c.create_table = false) :
    (write c o s row).st.counter
        = s.counter + (write c o s row).events.countP isInsertEvt
    ∧ (write c o s row).events.countP isCommitEvt + s.counter / c.commit
        = (write c o s row).st.counter / c.commit := by
  have hds : drop_step c o = ([], none) := by simp [drop_step, hd]
  have hcs : create_step c o row = ([], none) := by simp [create_step, hc]
  unfold write
  split
  · split
    · exact firstWrite_batch c o s row hds hcs
    · split
      · simp
      · split
        · exact doInsert_batch c o s row _ _ [] rfl rfl
        · simp
  · exact firstWrite_batch c o s row hds hcs

theorem runWrites_batch (c : Config)
    (hd : c.drop_table = false) (hc : c.create_table = false) :
    ∀ (calls : List (Oracle × Row)) (s : WState),
    (runWrites c s calls).1.counter
        = s.counter + (runWrites c s calls).2.countP isInsertEvt
    ∧ (runWrites c s calls).2.countP isCommitEvt + s.counter / c.commit
        = (runWrites c s calls).1.counter / c.commit := by
  intro calls
  induction calls with
  | nil => intro s; simp [runWrites]
  | cons p rest ih =>
    intro s
    obtain ⟨o, r⟩ := p
    have hw := write_batch c o s r hd hc
    have hr := ih (write c o s r).st
    simp only [runWrites, List.countP_append]
    constructor
    · rw [hr.1, hw.1]
      omega
    · rw [← hr.2, ← hw.2]
      omega

theorem write_no_close (c : Config) (o : Oracle) (s : WState) (row : Row) :
    (write c o s row).events.countP isCloseEvt = 0 := by
  have hds := drop_step_countP c o isCloseEvt rfl rfl
  have hcs := create_step_countP c o row isCloseEvt (fun sql => rfl) rfl
  have hws := warn_events_countP o row isCloseEvt (fun m => rfl)
  have hcm : ∀ n, (commit_events c n).countP isCloseEvt = 0 :=
    fun n => commit_events_countP c n isCloseEvt rfl
  have hfw : (firstWrite c o s row).events.countP isCloseEvt = 0 := by
    unfold firstWrite
    split
    · simp
    · split
      · simp [List.countP_cons, isCloseEvt, hds]
      · split
        · simp [List.countP_append, List.countP_cons, isCloseEvt, hds, hcs]
        · unfold doInsert
          simp [List.countP_append, List.countP_cons, isCloseEvt, hds, hcs,
            hws, hcm]
  unfold write
  split
  · split
    · exact hfw
    · split
      · simp
      · split
        · unfold doInsert
          simp [List.countP_append, List.countP_cons, isCloseEvt, hws, hcm]
        · simp
  · exact hfw

theorem runWrites_no_close (c : Config) :
    ∀ (calls : List (Oracle × Row)) (s : WState),
    (runWrites c s calls).2.countP isCloseEvt = 0 := by
  intro calls
  induction calls with
  | nil => intro s; simp [runWrites]
  | cons p rest ih =>
    intro s
    obtain ⟨o, r⟩ := p
    simp [runWrites, List.countP_append, write_no_close, ih]

theorem firstInsertParams_append (l l' : List Event)
    (h : l.countP isInsertEvt = 0) :
    firstInsertParams (l ++ l') = firstInsertParams l' := by
  rw [List.countP_eq_zero] at h
  induction l with
  | nil => rfl
  | cons e rest ih =>
    have he := h e (List.mem_cons_self e rest)
    have hr : ∀ x ∈ rest, ¬ (isInsertEvt x = true) :=
      fun x hx => h x (List.mem_cons_of_mem e hx)
    cases e with
    | execInsert sql ps => exact absurd rfl he
    | cursorOpen => exact ih hr
    | cursorClose => exact ih hr
    | execDrop s1 => exact ih hr
    | execCreate s1 => exact ih hr
    | commit => exact ih hr
    | warn m => exact ih hr
    | planBuilt s1 cs => exact ih hr

theorem insert_params_map (f : Value → RowCast) (vs : List Value) :
    insert_params (vs.map f) vs = vs.map (fun v => applyCast (f v) v) := by
  induction vs with
  | nil => rfl
  | cons v rest ih => simp [insert_params, List.zip_cons_cons] at ih ⊢; exact ih

theorem applyCast_rule (c : Config) (v : Value) :
    applyCast
      (if is_ip_base v.vtype then
        (if startsWithStr (upperStr c.ip_type) "INT" then RowCast.toInt
         else RowCast.toStr)
       else if v.vtype = ValueType.tUrl then RowCast.toStr
       else RowCast.identity) v
    = (if is_ip_base v.vtype then
        (if startsWithStr (upperStr c.ip_type) "INT" then Param.asInt v.intRep
         else Param.asText v.strRep)
       else if v.vtype = ValueType.tUrl then Param.asText v.strRep
       else Param.asIs v) := by
  cases h1 : is_ip_base v.vtype <;>
    cases h2 : startsWithStr (upperStr c.ip_type) "INT" <;>
      by_cases h3 : v.vtype = ValueType.tUrl <;>
        simp [h1, h2, h3, applyCast]

theorem col_defs_unmapped (c : Config) :
    ∀ (vs : List Value) (ns : List String), ns.length = vs.length →
    vs.any (fun v => (type_map c v.vtype).isNone) = true →
    ∃ e, col_defs c (ns.zip vs) = Except.error e := by
  intro vs
  induction vs with
  | nil => intro ns hl ha; simp at ha
  | cons v rest ih =>
    intro ns hl ha
    cases ns with
    | nil => simp at hl
    | cons n ns' =>
      simp only [List.zip_cons_cons, col_defs]
      cases hm : type_map c v.vtype with
      | none => exact ⟨SQLFatal.keyErrorType v.vtype, rfl⟩
      | some t =>
        simp only [List.any_cons, hm, Option.isNone_some, Bool.false_or] at ha
        have hl' : ns'.length = rest.length := by
          simpa using hl
        obtain ⟨e, he⟩ := ih ns' hl' ha
        refine ⟨e, ?_⟩
        have he' : col_defs c (List.zipWith Prod.mk ns' rest) = Except.error e :=
          he
        simp [he']

/-- Claim C1 (amended): in every session that does not request drop-table or
create-table, commits track exactly the batch boundaries: the number of
commits in the session trace equals the number of attempted INSERT
executions divided by the commit threshold (one commit each time the row
counter reaches a positive multiple of the threshold), plus exactly one
final commit at session close, even if the last batch is partial. -/
theorem C1_batch_commit_boundaries (c : Config) (calls : List (Oracle × Row))
    (hd : c.drop_table = false) (hc : c.create_table = false) :
    (sessionEvents c calls).countP isCommitEvt
      = (sessionEvents c calls).countP isInsertEvt / c.commit + 1 := by
  obtain ⟨h1, h2⟩ := runWrites_batch c hd hc calls initState
  have hzero : initState.counter = 0 := rfl
  rw [hzero] at h1 h2
  simp only [Nat.zero_div, Nat.add_zero, Nat.zero_add] at h1 h2
  unfold sessionEvents
  simp [List.countP_append, List.countP_cons, sqlexit, isCommitEvt,
    isInsertEvt]
  rw [h2, h1]

/-- Claim C1 as stated is false on the code: with create-table requested,
the commit issued right after CREATE TABLE is an extra commit at a point
where the row counter (zero) is not a positive multiple of the threshold. -/
theorem C1_ddl_commit_cex :
    ¬ ((sessionEvents cfgCreate [(cleanOracle, rowOne)]).countP isCommitEvt
      = (sessionEvents cfgCreate [(cleanOracle, rowOne)]).countP isInsertEvt
          / cfgCreate.commit + 1) := by
  decide

/-- Witness for C1 at a concrete session: threshold 2 and three attempted
rows give one batch commit plus the final commit. -/
theorem C1_batch_commit_boundaries_w :
    (sessionEvents cfgQ2 [(cleanOracle, rowOne), (cleanOracle, rowOne),
        (cleanOracle, rowOne)]).countP isCommitEvt
      = (sessionEvents cfgQ2 [(cleanOracle, rowOne), (cleanOracle, rowOne),
          (cleanOracle, rowOne)]).countP isInsertEvt / cfgQ2.commit + 1 :=
  C1_batch_commit_boundaries cfgQ2
    [(cleanOracle, rowOne), (cleanOracle, rowOne), (cleanOracle, rowOne)]
    rfl rfl

/-- Claim C2: every `write` call whose trace reaches the INSERT execution
increments the internal row counter by exactly one, regardless of whether
the backend accepted or rejected that INSERT. -/
theorem C2_counter_increment (c : Config) (o : Oracle) (s : WState) (row : Row)
    (h : (write c o s row).events.countP isInsertEvt ≠ 0) :
    (write c o s row).st.counter = s.counter + 1 := by
  have hds := drop_step_countP c o isInsertEvt rfl rfl
  have hcs := create_step_countP c o row isInsertEvt (fun sql => rfl) rfl
  have hfw : (firstWrite c o s row).events.countP isInsertEvt ≠ 0 →
      (firstWrite c o s row).st.counter = s.counter + 1 := by
    unfold firstWrite
    split
    · intro hh; simp at hh
    · split
      · intro hh
        simp [List.countP_cons, isInsertEvt, hds] at hh
      · split
        · intro hh
          simp [List.countP_cons, List.countP_append, isInsertEvt, hds,
            hcs] at hh
        · intro hh
          unfold doInsert
          simp
  revert h
  unfold write
  split
  · split
    · exact hfw
    · split
      · intro hh; simp at hh
      · split
        · intro hh
          unfold doInsert
          simp
        · intro hh; simp at hh
  · exact hfw

/-- Witness for C2: a clean first write of a one-column row reaches the
INSERT and bumps the counter from 0 to 1. -/
theorem C2_counter_increment_w :
    (write cfgQ cleanOracle initState rowOne).st.counter
      = initState.counter + 1 :=
  C2_counter_increment cfgQ cleanOracle initState rowOne (by decide)

/-- Claim C10: every session trace contains exactly one cursor close; the
trace ends with the close-time final commit and the cursor close is the
event immediately before it, so the cursor is already released if that
commit fails.  This holds for every call list, including sessions whose
writes raised fatal errors. -/
theorem C10_close_then_commit (c : Config) (calls : List (Oracle × Row)) :
    (sessionEvents c calls).countP isCloseEvt = 1
    ∧ (sessionEvents c calls).getLast? = some Event.commit
    ∧ (sessionEvents c calls).dropLast.getLast? = some Event.cursorClose := by
  have hshape : sessionEvents c calls
      = (Event.cursorOpen :: ((runWrites c initState calls).2
          ++ [Event.cursorClose])) ++ [Event.commit] := by
    unfold sessionEvents
    simp [sqlexit]
  refine ⟨?_, ?_, ?_⟩
  · unfold sessionEvents
    simp [List.countP_append, List.countP_cons, isCloseEvt, sqlexit,
      runWrites_no_close c calls initState]
  · rw [hshape, List.getLast?_concat]
  · rw [hshape, List.dropLast_concat, ← List.cons_append,
      List.getLast?_concat]

/-- Claim C3 (code evaluated at the failing input): for the `numeric`
binding style the code renders placeholders from `enumerate`'s 0-based
index, producing `:0, :1` for a two-field first row, where the claim (and
the DB-API numeric convention) requires the 1-based `:1, :2`. -/
theorem C3_numeric_zero_based :
    generate_statement cfgNum rowXY
      = Except.ok ("INSERT INTO t VALUES (:0, :1)",
          [RowCast.identity, RowCast.identity]) := by
  rfl

/-- Claim C4 as stated is false on the code: `if self._first_row:` is a
truthiness test, so after an empty first row the next write re-enters the
first-row branch, rebuilds the statement plan and replaces the stored
INSERT text — a later row changes the plan within one session. -/
theorem C4_empty_first_row_cex :
    (write cfgQ cleanOracle sEmpty rowOne).events.countP isPlanEvt = 1
    ∧ (write cfgQ cleanOracle sEmpty rowOne).st.insert ≠ sEmpty.insert := by
  decide

/-- Claim C4 (amended): once a non-empty first row is recorded, no later
`write` call rebuilds or changes the statement plan: the stored INSERT text
and cast list are unchanged and no plan construction occurs. -/
theorem C4_plan_fixed (c : Config) (o : Oracle) (s : WState) (row fr : Row)
    (h1 : s.first_row = some fr) (h2 : fr.values.isEmpty = false) :
    (write c o s row).st.insert = s.insert
    ∧ (write c o s row).st.row_casts = s.row_casts
    ∧ (write c o s row).events.countP isPlanEvt = 0 := by
  unfold write
  split
  · rename_i fr2 heq
    rw [h1] at heq
    injection heq with hfr2
    subst hfr2
    rw [if_neg (by simp [h2])]
    split
    · exact ⟨rfl, rfl, rfl⟩
    · split
      · unfold doInsert
        refine ⟨rfl, rfl, ?_⟩
        simp [List.countP_append, List.countP_cons, isPlanEvt,
          warn_events_countP o row isPlanEvt (fun m => rfl),
          commit_events_countP c (s.counter + 1) isPlanEvt rfl]
      · exact ⟨rfl, rfl, rfl⟩
  · rename_i heq
    rw [h1] at heq
    exact absurd heq (by simp)

/-- Witness for C4: after a clean first write of a non-empty row, a second
write leaves the stored plan untouched. -/
theorem C4_plan_fixed_w :
    (write cfgQ cleanOracle sOne rowOne).st.insert = sOne.insert
    ∧ (write cfgQ cleanOracle sOne rowOne).st.row_casts = sOne.row_casts
    ∧ (write cfgQ cleanOracle sOne rowOne).events.countP isPlanEvt = 0 :=
  C4_plan_fixed cfgQ cleanOracle sOne rowOne rowOne (by decide) (by decide)

/-- Claim C5 as stated is false on the code: without create-table the type
map is never consulted for row values, so a first row whose value type has
no type-map entry is written without any fatal error. -/
theorem C5_no_create_cex :
    resOk (write cfgQ cleanOracle initState rowOth).res = true
    ∧ (write cfgQ cleanOracle initState rowOth).st.counter = 1 := by
  decide

/-- Claim C5 (amended): when create-table is requested, a first row
containing a value type with no type-map entry makes the first write fail
with a fatal error (for every oracle and well-formed field-name list). -/
theorem C5_create_unmapped (c : Config) (o : Oracle) (row : Row)
    (hc : c.create_table = true)
    (hw : (field_names row).length = row.values.length)
    (hum : row.values.any (fun v => (type_map c v.vtype).isNone) = true) :
    resOk (write c o initState row).res = false := by
  obtain ⟨e, he⟩ := col_defs_unmapped c row.values (field_names row) hw hum
  have hsql : create_table_sql c row = Except.error e := by
    unfold create_table_sql
    rw [he]
  have hcr : create_step c o row = ([], some e) := by
    unfold create_step
    rw [if_pos hc, hsql]
  show resOk (write c o initState row).res = false
  unfold write
  split
  · rename_i fr2 heq
    simp [initState] at heq
  · unfold firstWrite
    split
    · rfl
    · rw [hcr]
      split
      · rfl
      · rfl

/-- Witness for C5: with create-table requested, a first row containing a
value of unmapped type fails fatally at the first write. -/
theorem C5_create_unmapped_w :
    resOk (write cfgCreate cleanOracle initState rowOth).res = false :=
  C5_create_unmapped cfgCreate cleanOracle rowOth rfl rfl rfl

/-- Claim C6 as stated is false on the code: the claimed first-write order
(DROP, then CREATE, then build the plan) does not hold — on a first write
with both schema steps requested, the plan is built before the DROP
executes, so the claimed phase sequence is not non-decreasing. -/
theorem C6_claimed_order_cex :
    nondecreasing ((write cfgDropCreate cleanOracle initState rowOne).events.filterMap
      phaseClaimed) = false := by
  decide

/-- Claim C6 (amended): on the first write of a session the code first
records the row and builds the statement plan, then executes the DROP if
requested (recoverable per ignore_drop_errors), then the CREATE if
requested, then the INSERT; there is no row-non-emptiness validation.
Formally: the first-write trace phases are non-decreasing in the order
plan, drop, create, insert, and whenever any DROP/CREATE/INSERT was
executed, exactly one plan construction happened. -/
theorem C6_first_write_order (c : Config) (o : Oracle) (row : Row) :
    nondecreasing ((write c o initState row).events.filterMap phase_of) = true
    ∧ ((write c o initState row).events.countP
          (fun e => isDropEvt e || isCreateEvt e || isInsertEvt e) ≠ 0 →
        (write c o initState row).events.countP isPlanEvt = 1) := by
  have hw : write c o initState row = firstWrite c o initState row := rfl
  rw [hw]
  have hdp := drop_step_phase c o
  have hcp := create_step_phase c o row
  have hdn := drop_step_countP c o isPlanEvt rfl rfl
  have hcn := create_step_countP c o row isPlanEvt (fun sql => rfl) rfl
  have hwn := warn_events_countP o row isPlanEvt (fun m => rfl)
  have hkn : ∀ n, (commit_events c n).countP isPlanEvt = 0 :=
    fun n => commit_events_countP c n isPlanEvt rfl
  unfold firstWrite
  split
  · exact ⟨rfl, fun hh => absurd rfl hh⟩
  · split
    · constructor
      · rcases hdp with hp | hp <;>
          simp [List.filterMap_cons, phase_of, hp, nondecreasing]
      · intro hh
        simp [List.countP_cons, isPlanEvt, hdn]
    · split
      · constructor
        · rcases hdp with hp | hp <;> rcases hcp with hq | hq <;>
            simp [List.filterMap_cons, List.filterMap_append, phase_of,
              hp, hq, nondecreasing]
        · intro hh
          simp [List.countP_cons, List.countP_append, isPlanEvt, hdn, hcn]
      · unfold doInsert
        constructor
        · rcases hdp with hp | hp <;> rcases hcp with hq | hq <;>
            simp [List.filterMap_cons, List.filterMap_append, phase_of,
              hp, hq, warn_events_phase, commit_events_phase, nondecreasing]
        · intro hh
          simp [List.countP_cons, List.countP_append, isPlanEvt, hdn, hcn,
            hwn, hkn]

/-- Witness for C6 at a first write with both DROP and CREATE requested. -/
theorem C6_first_write_order_w :
    nondecreasing ((write cfgDropCreate cleanOracle initState rowOne).events.filterMap
        phase_of) = true
    ∧ (write cfgDropCreate cleanOracle initState rowOne).events.countP
        isPlanEvt = 1 :=
  ⟨(C6_first_write_order cfgDropCreate cleanOracle rowOne).1,
   (C6_first_write_order cfgDropCreate cleanOracle rowOne).2 (by decide)⟩

/-- Claim C7 as stated is false on the code: after an empty first row the
truthiness test `if self._first_row:` fails, so a second row of a different
length raises no shape error — it is treated as a fresh first row, written
and counted. -/
theorem C7_empty_first_row_cex :
    resOk (write cfgQ cleanOracle sEmpty rowOne).res = true
    ∧ (write cfgQ cleanOracle sEmpty rowOne).st.counter = 2 := by
  decide

/-- Claim C7 (amended): after a non-empty first row, a write whose row
length differs from the first row's raises the shape `TypeError`, attempts
no INSERT (no events at all), leaves the state — including the counter —
unchanged, so the session stays usable for later correctly-shaped writes. -/
theorem C7_width_mismatch (c : Config) (o : Oracle) (s : WState) (row fr : Row)
    (h1 : s.first_row = some fr) (h2 : fr.values.isEmpty = false)
    (h3 : row.values.length ≠ fr.values.length) :
    (write c o s row).res
      = Except.error
          (SQLFatal.typeError "Rows must have the same number of elements")
    ∧ (write c o s row).st = s
    ∧ (write c o s row).events = [] := by
  unfold write
  split
  · rename_i fr2 heq
    rw [h1] at heq
    injection heq with hfr2
    subst hfr2
    rw [if_neg (by simp [h2]), if_pos h3]
    exact ⟨rfl, rfl, rfl⟩
  · rename_i heq
    rw [h1] at heq
    exact absurd heq (by simp)

/-- Witness for C7: a two-column row after a one-column first row is
rejected with the shape error and changes nothing. -/
theorem C7_width_mismatch_w :
    (write cfgQ cleanOracle sOne rowXY).res
      = Except.error
          (SQLFatal.typeError "Rows must have the same number of elements")
    ∧ (write cfgQ cleanOracle sOne rowXY).st = sOne
    ∧ (write cfgQ cleanOracle sOne rowXY).events = [] :=
  C7_width_mismatch cfgQ cleanOracle sOne rowXY rowOne (by decide) (by decide)
    (by decide)

/-- Claim C8: a write whose INSERT execution is rejected by the backend
raises nothing, emits exactly one recoverable warning carrying the driver's
error text and the textual rendering of the offending row, and still
increments the counter, so the next row can be written and counted. -/
theorem C8_insert_error_warning (c : Config) (o : Oracle) (s : WState)
    (row : Row) (msg : String) (h1 : o.insertErr = some msg)
    (h2 : (write c o s row).events.countP isInsertEvt ≠ 0) :
    (write c o s row).events.filter isWarnEvt
      = [Event.warn (msg ++ " while inserting row " ++ row.text)]
    ∧ (write c o s row).res = Except.ok ()
    ∧ (write c o s row).st.counter = s.counter + 1 := by
  have hwe : warn_events o row
      = [Event.warn (msg ++ " while inserting row " ++ row.text)] := by
    unfold warn_events
    rw [h1]
  have hdf : (drop_step c o).1.filter isWarnEvt = [] := by
    rcases drop_step_events c o with h | h | h <;> simp [h, isWarnEvt]
  have hcf : (create_step c o row).1.filter isWarnEvt = [] := by
    rcases create_step_events c o row with h | ⟨sql, h⟩ | ⟨sql, h⟩ <;>
      simp [h, isWarnEvt]
  have hkf : ∀ n, (commit_events c n).filter isWarnEvt = [] := by
    intro n
    rcases commit_events_cases c n with h | h <;> simp [h, isWarnEvt]
  have hds := drop_step_countP c o isInsertEvt rfl rfl
  have hcs := create_step_countP c o row isInsertEvt (fun sql => rfl) rfl
  have hfw : (firstWrite c o s row).events.countP isInsertEvt ≠ 0 →
      (firstWrite c o s row).events.filter isWarnEvt
        = [Event.warn (msg ++ " while inserting row " ++ row.text)]
      ∧ (firstWrite c o s row).res = Except.ok ()
      ∧ (firstWrite c o s row).st.counter = s.counter + 1 := by
    unfold firstWrite
    split
    · intro hh; simp at hh
    · split
      · intro hh
        simp [List.countP_cons, isInsertEvt, hds] at hh
      · split
        · intro hh
          simp [List.countP_cons, List.countP_append, isInsertEvt, hds,
            hcs] at hh
        · intro hh
          unfold doInsert
          refine ⟨?_, rfl, rfl⟩
          simp [List.filter_append, List.filter_cons, isWarnEvt, hdf, hcf,
            hwe, hkf]
  revert h2
  unfold write
  split
  · split
    · exact hfw
    · split
      · intro hh; simp at hh
      · split
        · intro hh
          unfold doInsert
          refine ⟨?_, rfl, rfl⟩
          simp [List.filter_append, List.filter_cons, isWarnEvt, hwe, hkf]
        · intro hh; simp at hh
  · exact hfw

/-- Witness for C8: a rejected one-row INSERT on a fresh session. -/
theorem C8_insert_error_warning_w :
    (write cfgQ errOracle initState rowOne).events.filter isWarnEvt
      = [Event.warn ("constraint failed" ++ " while inserting row "
          ++ rowOne.text)]
    ∧ (write cfgQ errOracle initState rowOne).res = Except.ok ()
    ∧ (write cfgQ errOracle initState rowOne).st.counter
        = initState.counter + 1 :=
  C8_insert_error_warning cfgQ errOracle initState rowOne "constraint failed"
    rfl (by decide)

theorem firstInsertParams_none (l : List Event)
    (h : l.countP isInsertEvt = 0) : firstInsertParams l = none := by
  have hx := firstInsertParams_append l [] h
  simpa using hx

theorem generate_statement_casts (c : Config) (row : Row)
    (pr : String × List RowCast)
    (h : generate_statement c row = Except.ok pr) :
    pr.2 = row.values.map (fun v =>
      if is_ip_base v.vtype then
        (if startsWithStr (upperStr c.ip_type) "INT" then RowCast.toInt
         else RowCast.toStr)
      else if v.vtype = ValueType.tUrl then RowCast.toStr
      else RowCast.identity) := by
  unfold generate_statement at h
  cases hph : placeholders c.paramstyle (field_names row) with
  | none => rw [hph] at h; exact absurd h (by simp)
  | some phs =>
    rw [hph] at h
    simp only [Except.ok.injEq] at h
    rw [← h]

/-- Claim C9: in the INSERT actually executed from the first row, every
IP-address-family value is bound as its integer form when the configured IP
column type starts with "INT" (case-insensitively, via upper-casing) and as
its text form for any other configured type; a URL-typed value is always
bound as its text form; every other value passes through unchanged. -/
theorem C9_coercion_binding (c : Config) (o : Oracle) (row : Row)
    (ps : List Param)
    (h : firstInsertParams (write c o initState row).events = some ps) :
    ps = row.values.map (fun v =>
      if is_ip_base v.vtype then
        (if startsWithStr (upperStr c.ip_type) "INT" then Param.asInt v.intRep
         else Param.asText v.strRep)
      else if v.vtype = ValueType.tUrl then Param.asText v.strRep
      else Param.asIs v) := by
  have hds := drop_step_countP c o isInsertEvt rfl rfl
  have hcs := create_step_countP c o row isInsertEvt (fun sql => rfl) rfl
  have hw : write c o initState row = firstWrite c o initState row := rfl
  rw [hw] at h
  revert h
  unfold firstWrite
  split
  · intro h; simp [firstInsertParams] at h
  · rename_i pr heq
    split
    · intro h
      rw [firstInsertParams_none _
        (by simp [List.countP_cons, isInsertEvt, hds])] at h
      exact absurd h (by simp)
    · split
      · intro h
        rw [firstInsertParams_none _
          (by simp [List.countP_cons, List.countP_append, isInsertEvt,
            hds, hcs])] at h
        exact absurd h (by simp)
      · intro h
        unfold doInsert at h
        simp only [List.append_assoc] at h
        rw [firstInsertParams_append _ _
          (by simp [List.countP_cons, List.countP_append, isInsertEvt,
            hds, hcs])] at h
        have hps : ps = insert_params pr.2 row.values := by
          rw [List.singleton_append] at h
          have hfi : firstInsertParams (Event.execInsert pr.1
              (insert_params pr.2 row.values)
              :: (warn_events o row ++ commit_events c (initState.counter + 1)))
              = some (insert_params pr.2 row.values) := rfl
          rw [hfi] at h
          injection h with hh
          exact hh.symm
        rw [hps, generate_statement_casts c row pr heq, insert_params_map]
        simp only [applyCast_rule]

/-- Witness for C9: a first row with an IPv4 address, a URL and an int,
with the IP column type configured as INTEGER. -/
theorem C9_coercion_binding_w :
    [Param.asInt 3232235521, Param.asText "http://e/", Param.asIs vInt7]
      = rowIp.values.map (fun v =>
        if is_ip_base v.vtype then
          (if startsWithStr (upperStr cfgIpInt.ip_type) "INT" then
            Param.asInt v.intRep
           else Param.asText v.strRep)
        else if v.vtype = ValueType.tUrl then Param.asText v.strRep
        else Param.asIs v) :=
  C9_coercion_binding cfgIpInt cleanOracle rowIp
    [Param.asInt 3232235521, Param.asText "http://e/", Param.asIs vInt7]
    (by rfl)
